import Mathlib

set_option autoImplicit false

/-!
Verification of the CodeAssess backend (src/main.py, src/schemas.py).

Documents stored in MongoDB and the JSON bodies exchanged with the API are
modelled as ordered association lists of string keys and `Val` values,
mirroring Python dicts (insertion order preserved, unique keys).  The
repository imports `database.py` (the `db` handle, `create_document`,
`get_documents`), which is not among the given source files; those
operations are modelled from the spec, and each such definition is marked
`Modelled from the spec:` in its doc comment.
-/

/-- A JSON/BSON-like dynamic value, as shuttled through the API handlers:
strings, integers, booleans, null, native store identifiers (`ObjectId`,
carried as its canonical lowercase 24-hex string), arrays and nested
documents. -/
inductive Val where
  | str (s : String)
  | int (n : Int)
  | bool (b : Bool)
  | null
  | oid (s : String)
  | list (l : List Val)
  | doc (d : List (String × Val))

/-- A document: a Python dict with string keys, in insertion order. -/
abbrev Doc := List (String × Val)

/-- `d[k]` lookup on a dict: the first (in a well-formed dict, the only)
binding of key `k`. -/
def getKey (k : String) : Doc → Option Val
  | [] => none
  | (k2, v) :: rest => if k2 = k then some v else getKey k rest

/-- `d.pop(k)`'s effect on the mapping: remove every binding of `k`
(a Python dict has at most one). -/
def eraseKey (k : String) : Doc → Doc
  | [] => []
  | p :: rest => if p.1 = k then eraseKey k rest else p :: eraseKey k rest

/-- Whether key `k` is present in the dict. -/
def hasKey (k : String) (d : Doc) : Bool :=
  d.any (fun p => p.1 = k)

/-- Replace the value stored at an existing key, keeping its position. -/
def updateKey (k : String) (v : Val) : Doc → Doc
  | [] => []
  | p :: rest =>
      if p.1 = k then (k, v) :: updateKey k v rest
      else p :: updateKey k v rest

/-- `d[k] = v` on a dict: update the binding in place when the key exists,
otherwise append the new binding at the end (Python insertion order). -/
def setKey (k : String) (v : Val) (d : Doc) : Doc :=
  if hasKey k d then updateKey k v d
  else d ++ [(k, v)]

/-- Python `str()` on a value.  At the one call site (`_doc`), the argument
is always the popped `_id`, a native `ObjectId`, whose string form is its
hex string. -/
def pyStr : Val → String
  | .str s => s
  | .oid s => s
  | .int n => toString n
  | .bool b => if b then "True" else "False"
  | .null => "None"
  | .list _ => "<list>"
  | .doc _ => "<dict>"

/-- The body of `_doc` past the falsy guard (src/main.py:70-73):
`d = dict(d); if "_id" in d: d["id"] = str(d.pop("_id")); return d`. -/
def docNormalize (d : Doc) : Doc :=
  match getKey "_id" d with
  | none => d
  | some v => setKey "id" (Val.str (pyStr v)) (eraseKey "_id" d)

/-- Python truthiness test `not d` on an optional dict: `None` and the
empty dict are falsy. -/
def pyFalsy : Option Doc → Bool
  | none => true
  | some d => d.isEmpty

/-- `_doc` (src/main.py:67-73): return falsy input unchanged, otherwise
rename the native `_id` to a string-valued `id`. -/
def _doc (d : Option Doc) : Option Doc :=
  if pyFalsy d then d else d.map docNormalize

/-- Hexadecimal digit (either case), as accepted by `bytes.fromhex`. -/
def isHexChar (c : Char) : Bool :=
  c.isDigit || ('a' ≤ c && c ≤ 'f') || ('A' ≤ c && c ≤ 'F')

/-- `bson.objectid.ObjectId.is_valid` on a string: exactly the strings of
24 hexadecimal characters parse as an ObjectId. -/
def ObjectId.is_valid (s : String) : Bool :=
  s.length == 24 && s.toList.all isHexChar

/-- Lowercase one hexadecimal digit (`A`-`F` to `a`-`f`). -/
def lowerHexChar (c : Char) : Char :=
  if 'A' ≤ c && c ≤ 'F' then Char.ofNat (c.toNat + 32) else c

/-- Parsing a valid hex string into an `ObjectId` and taking `str` of it
canonicalizes the hex digits to lowercase; lookups compare ObjectIds, i.e.
canonical forms. -/
def normOid (s : String) : String := String.mk (s.toList.map lowerHexChar)

/-- The four MongoDB collections used by the backend (collection name is
the lowercase of the schema class name). -/
structure Store where
  users : List Doc
  tests : List Doc
  attempts : List Doc
  submissions : List Doc

/-- Whether a stored document's `_id` is the ObjectId with canonical hex
form `key` (the equality MongoDB applies for `find_one({"_id": oid})`;
non-ObjectId `_id` values compare unequal to an ObjectId). -/
def idMatches (key : String) (d : Doc) : Bool :=
  match getKey "_id" d with
  | some (.oid s) => s == key
  | _ => false

/-- `collection.find_one({"_id": ObjectId(k)})`: the first stored document
whose `_id` equals the ObjectId, or `None`. -/
def find_one (docs : List Doc) (key : String) : Option Doc :=
  docs.find? (idMatches key)

/-- A handler outcome: an `HTTPException` with status code and detail, or
a JSON success body. -/
abbrev HResult (α : Type) := Except (Nat × String) α

/-- `get_test` (src/main.py:96-108): reject a syntactically invalid id
with 400 before touching the store; otherwise `find_one` by ObjectId,
404 on a falsy result, else the `_doc`-normalized document. -/
def get_test (s : Store) (test_id : String) : HResult Doc :=
  if ObjectId.is_valid test_id = false then .error (400, "Invalid test id")
  else
    match find_one s.tests (normOid test_id) with
    | none => .error (404, "Test not found")
    | some d =>
        if d.isEmpty then .error (404, "Test not found")
        else .ok (docNormalize d)

/-- The empty store, used to instantiate universally quantified store
states in witnesses. -/
def emptyStore : Store := ⟨[], [], [], []⟩

/-! ## Claims C1 and C2: malformed-id short circuit, not-found distinction -/

/-- Claim C1: for every string that is not a syntactically well-formed
ObjectId, `GET /api/tests/{id}` returns the 400 client error, and the
outcome is independent of the store state (so no store query can influence
it); in particular it is never a 404 or a 500. -/
theorem get_test_malformed_short_circuit (id : String)
    (h : ObjectId.is_valid id = false) :
    ∀ s t : Store, get_test s id = .error (400, "Invalid test id") ∧
      get_test s id = get_test t id := by
  intro s t
  constructor
  · simp [get_test, h]
  · simp [get_test, h]

/-- Witness for C1 at the spec's scenario input `"not-a-valid-id"`. -/
theorem get_test_malformed_short_circuit_witness :
    get_test emptyStore "not-a-valid-id" = .error (400, "Invalid test id") ∧
      get_test emptyStore "not-a-valid-id" =
        get_test ⟨[], [[("_id", Val.oid "aaaaaaaaaaaaaaaaaaaaaaaa")]], [], []⟩
          "not-a-valid-id" :=
  get_test_malformed_short_circuit "not-a-valid-id" (by decide) emptyStore
    ⟨[], [[("_id", Val.oid "aaaaaaaaaaaaaaaaaaaaaaaa")]], [], []⟩

/-- Claim C2: a well-formed identifier that resolves to no stored test
yields the 404 error, and this error is never confused with the 400
malformed-identifier error: every malformed id yields exactly the 400
error on every store. -/
theorem get_test_not_found_distinct (s : Store) (id : String)
    (hv : ObjectId.is_valid id = true)
    (hm : find_one s.tests (normOid id) = none) :
    get_test s id = .error (404, "Test not found") ∧
      ∀ (t : Store) (id2 : String), ObjectId.is_valid id2 = false →
        get_test t id2 = .error (400, "Invalid test id") := by
  constructor
  · simp [get_test, hv, hm]
  · intro t id2 h2
    simp [get_test, h2]

/-- Witness for C2: a concrete well-formed, absent id on the empty store. -/
theorem get_test_not_found_distinct_witness :
    get_test emptyStore "0123456789abcdef01234567" =
        .error (404, "Test not found") ∧
      ∀ (t : Store) (id : String), ObjectId.is_valid id = false →
        get_test t id = .error (400, "Invalid test id") :=
  get_test_not_found_distinct emptyStore "0123456789abcdef01234567"
    (by decide) rfl

/-! ## Domain schemas (src/schemas.py)

Each pydantic model is embedded as a validated structure plus a payload
type in which every field is optional (absent vs. present in the JSON
body), and a `validate` function performing pydantic's structural
validation: required fields must be present, enumerated fields must lie in
their `Literal` sets, defaults fill unset fields.  `datetime` fields are
modelled as epoch integers and Python `float` as `Int` (only the exact
literal default `0` occurs; no arithmetic is performed on scores). -/

/-- `Role = Literal["test_taker", "manager", "admin"]` (src/schemas.py:18). -/
inductive Role where
  | test_taker
  | manager
  | admin
deriving DecidableEq, Repr

/-- `QuestionType = Literal["mcq", "code"]` (src/schemas.py:19). -/
inductive QuestionType where
  | mcq
  | code
deriving DecidableEq, Repr

/-- `Literal["active", "finished"]`, the `Attempt.status` values. -/
inductive AttemptStatus where
  | active
  | finished
deriving DecidableEq, Repr

/-- Pydantic's check of a string against the `Role` literal set. -/
def parseRole (s : String) : Option Role :=
  if s = "test_taker" then some Role.test_taker
  else if s = "manager" then some Role.manager
  else if s = "admin" then some Role.admin
  else none

/-- Pydantic's check of a string against the `QuestionType` literal set. -/
def parseQuestionType (s : String) : Option QuestionType :=
  if s = "mcq" then some QuestionType.mcq
  else if s = "code" then some QuestionType.code
  else none

/-- Pydantic's check of a string against the `Attempt.status` literal set. -/
def parseStatus (s : String) : Option AttemptStatus :=
  if s = "active" then some AttemptStatus.active
  else if s = "finished" then some AttemptStatus.finished
  else none

/-- Validated `User` (src/schemas.py:22-27). -/
structure User where
  name : String
  email : String
  role : Role
  avatar_url : Option String
  is_active : Bool
deriving DecidableEq, Repr

/-- Validated `Option` of src/schemas.py:30-33 (an MCQ answer option;
renamed here because `Option` is taken by Lean). -/
structure AnswerOption where
  id : String
  text : String
  correct : Bool
deriving DecidableEq, Repr

/-- Validated `Question` (src/schemas.py:36-43). -/
structure Question where
  title : String
  type : QuestionType
  prompt : String
  options : Option (List AnswerOption)
  points : Int
  starter_code : Option String
  language : Option String
deriving DecidableEq, Repr

/-- Validated `Test` (src/schemas.py:46-53). -/
structure Test where
  title : String
  description : String
  duration_minutes : Int
  tags : List String
  published : Bool
  questions : List Question
  created_by : Option String
deriving DecidableEq, Repr

/-- Validated `Submission` (src/schemas.py:56-63). -/
structure Submission where
  attempt_id : String
  test_id : String
  question_index : Int
  answer_option_ids : Option (List String)
  code_answer : Option String
  language : Option String
  created_at : Option Int
deriving DecidableEq, Repr

/-- Validated `Attempt` (src/schemas.py:66-75).  `score` and
`total_points` are `Optional` in the source with default `0`; absent
fields validate to `some 0` (an explicit JSON `null` is not modelled). -/
structure Attempt where
  test_id : String
  user_email : String
  user_name : String
  status : AttemptStatus
  started_at : Option Int
  finished_at : Option Int
  score : Option Int
  total_points : Option Int
  submissions : List String
deriving DecidableEq, Repr

/-- A `User` request body: each field absent or present. -/
structure UserPayload where
  name : Option String
  email : Option String
  role : Option String
  avatar_url : Option String
  is_active : Option Bool
deriving DecidableEq, Repr

/-- An `Option` (answer option) fragment of a request body. -/
structure OptionPayload where
  id : Option String
  text : Option String
  correct : Option Bool
deriving DecidableEq, Repr

/-- A `Question` fragment of a request body. -/
structure QuestionPayload where
  title : Option String
  type : Option String
  prompt : Option String
  options : Option (List OptionPayload)
  points : Option Int
  starter_code : Option String
  language : Option String
deriving DecidableEq, Repr

/-- A `Test` request body. -/
structure TestPayload where
  title : Option String
  description : Option String
  duration_minutes : Option Int
  tags : Option (List String)
  published : Option Bool
  questions : Option (List QuestionPayload)
  created_by : Option String
deriving DecidableEq, Repr

/-- An `Attempt` request body. -/
structure AttemptPayload where
  test_id : Option String
  user_email : Option String
  user_name : Option String
  status : Option String
  started_at : Option Int
  finished_at : Option Int
  score : Option Int
  total_points : Option Int
  submissions : Option (List String)
deriving DecidableEq, Repr

/-- A `Submission` request body. -/
structure SubmissionPayload where
  attempt_id : Option String
  test_id : Option String
  question_index : Option Int
  answer_option_ids : Option (List String)
  code_answer : Option String
  language : Option String
  created_at : Option Int
deriving DecidableEq, Repr

/-- An enum field with a default: absent validates to the default, present
strings must parse. -/
def defaultedRole : Option String → Option Role
  | none => some Role.test_taker
  | some s => parseRole s

/-- `type: QuestionType = "mcq"`: absent validates to `mcq`. -/
def defaultedQType : Option String → Option QuestionType
  | none => some QuestionType.mcq
  | some s => parseQuestionType s

/-- `status: Literal["active","finished"] = "active"`. -/
def defaultedStatus : Option String → Option AttemptStatus
  | none => some AttemptStatus.active
  | some s => parseStatus s

/-- Validate every element of a list, failing if any element fails. -/
def validateList {α β : Type} (f : α → Option β) : List α → Option (List β)
  | [] => some []
  | x :: xs =>
      match f x, validateList f xs with
      | some y, some ys => some (y :: ys)
      | _, _ => none

/-- Validate an optional list of sub-documents: absent stays absent
(`Optional[List[...]] = None`). -/
def optValidateList {α β : Type} (f : α → Option β) :
    Option (List α) → Option (Option (List β))
  | none => some none
  | some l => (validateList f l).map some

/-- Pydantic validation of a `User` body. -/
def User.validate (p : UserPayload) : Option User :=
  match p.name, p.email, defaultedRole p.role with
  | some name, some email, some role =>
      some ⟨name, email, role, p.avatar_url, p.is_active.getD true⟩
  | _, _, _ => none

/-- Pydantic validation of an answer `Option` body. -/
def AnswerOption.validate (p : OptionPayload) : Option AnswerOption :=
  match p.id, p.text with
  | some i, some t => some ⟨i, t, p.correct.getD false⟩
  | _, _ => none

/-- Pydantic validation of a `Question` body.  Note `options` has default
`None`, not the empty list. -/
def Question.validate (p : QuestionPayload) : Option Question :=
  match p.title, defaultedQType p.type, p.prompt,
        optValidateList AnswerOption.validate p.options with
  | some title, some ty, some prompt, some opts =>
      some ⟨title, ty, prompt, opts, p.points.getD 1,
            p.starter_code, p.language⟩
  | _, _, _, _ => none

/-- Pydantic validation of a `Test` body. -/
def Test.validate (p : TestPayload) : Option Test :=
  match p.title, p.description,
        validateList Question.validate (p.questions.getD []) with
  | some title, some dsc, some qs =>
      some ⟨title, dsc, p.duration_minutes.getD 60, p.tags.getD [],
            p.published.getD false, qs, p.created_by⟩
  | _, _, _ => none

/-- Pydantic validation of an `Attempt` body. -/
def Attempt.validate (p : AttemptPayload) : Option Attempt :=
  match p.test_id, p.user_email, p.user_name, defaultedStatus p.status with
  | some ti, some ue, some un, some st =>
      some ⟨ti, ue, un, st, p.started_at, p.finished_at,
            some (p.score.getD 0), some (p.total_points.getD 0),
            p.submissions.getD []⟩
  | _, _, _, _ => none

/-- Pydantic validation of a `Submission` body. -/
def Submission.validate (p : SubmissionPayload) : Option Submission :=
  match p.attempt_id, p.test_id, p.question_index with
  | some a, some t, some qi =>
      some ⟨a, t, qi, p.answer_option_ids, p.code_answer, p.language,
            p.created_at⟩
  | _, _, _ => none

/-! ## Serialization and the document-store adapter -/

/-- String form of a `Role`, as serialized. -/
def Role.toStr : Role → String
  | .test_taker => "test_taker"
  | .manager => "manager"
  | .admin => "admin"

/-- String form of a `QuestionType`, as serialized. -/
def QuestionType.toStr : QuestionType → String
  | .mcq => "mcq"
  | .code => "code"

/-- String form of an `AttemptStatus`, as serialized. -/
def AttemptStatus.toStr : AttemptStatus → String
  | .active => "active"
  | .finished => "finished"

/-- An optional serialized field: unset optional fields are dropped from
the stored document. -/
def optField (k : String) : Option Val → Doc
  | none => []
  | some v => [(k, v)]

/-- Serialized form of an answer option. -/
def serializeAnswerOption (o : AnswerOption) : Doc :=
  [("id", Val.str o.id), ("text", Val.str o.text),
   ("correct", Val.bool o.correct)]

/-- Serialized form of a question, fields in declaration order. -/
def serializeQuestion (q : Question) : Doc :=
  [("title", Val.str q.title), ("type", Val.str q.type.toStr),
   ("prompt", Val.str q.prompt)]
  ++ optField "options"
      (q.options.map (fun l =>
        Val.list (l.map (fun o => Val.doc (serializeAnswerOption o)))))
  ++ [("points", Val.int q.points)]
  ++ optField "starter_code" (q.starter_code.map Val.str)
  ++ optField "language" (q.language.map Val.str)

/-- Modelled from the spec: serialization of a validated `Test` by
`database.create_document` (database.py is not among the source files) —
"serializes the validated entity (dropping any unset/default-suppressed
fields per the schema's own serialization rules)" (§4.2), with defaults
present in the stored document (§8, Default application). -/
def serializeTest (t : Test) : Doc :=
  [("title", Val.str t.title), ("description", Val.str t.description),
   ("duration_minutes", Val.int t.duration_minutes),
   ("tags", Val.list (t.tags.map Val.str)),
   ("published", Val.bool t.published),
   ("questions",
    Val.list (t.questions.map (fun q => Val.doc (serializeQuestion q))))]
  ++ optField "created_by" (t.created_by.map Val.str)

/-- Modelled from the spec: serialization of a validated `Attempt`, as for
`serializeTest`. -/
def serializeAttempt (a : Attempt) : Doc :=
  [("test_id", Val.str a.test_id), ("user_email", Val.str a.user_email),
   ("user_name", Val.str a.user_name),
   ("status", Val.str a.status.toStr)]
  ++ optField "started_at" (a.started_at.map Val.int)
  ++ optField "finished_at" (a.finished_at.map Val.int)
  ++ optField "score" (a.score.map Val.int)
  ++ optField "total_points" (a.total_points.map Val.int)
  ++ [("submissions", Val.list (a.submissions.map Val.str))]

/-- Modelled from the spec: serialization of a validated `Submission`, as
for `serializeTest`. -/
def serializeSubmission (sb : Submission) : Doc :=
  [("attempt_id", Val.str sb.attempt_id), ("test_id", Val.str sb.test_id),
   ("question_index", Val.int sb.question_index)]
  ++ optField "answer_option_ids"
      (sb.answer_option_ids.map (fun l => Val.list (l.map Val.str)))
  ++ optField "code_answer" (sb.code_answer.map Val.str)
  ++ optField "language" (sb.language.map Val.str)
  ++ optField "created_at" (sb.created_at.map Val.int)

/-- Modelled from the spec: `database.create_document(collection, doc)`
(§4.2) — inserts the serialized entity as a new document and returns the
newly assigned identifier as an opaque string.  The generated ObjectId
`newId` is a parameter of the model (MongoDB generates it); the stored
document carries it in its `_id` field. -/
def create_document (docs : List Doc) (newId : String) (body : Doc) :
    List Doc :=
  docs ++ [("_id", Val.oid newId) :: body]

/-- One exact-match condition of a filter: the document's field holds
exactly that string value. -/
def fieldMatches (d : Doc) (kv : String × String) : Bool :=
  match getKey kv.1 d with
  | some (.str s) => s == kv.2
  | _ => false

/-- A document matches a filter when it matches every condition
(exact-match conjunction). -/
def matchesFilter (f : List (String × String)) (d : Doc) : Bool :=
  f.all (fieldMatches d)

/-- Modelled from the spec: `database.get_documents(collection, filter,
limit)` (§4.2) — documents matching an exact-match conjunction of the
given fields, in the store's natural order, capped at `limit` if
provided. -/
def get_documents (docs : List Doc) (f : List (String × String))
    (limit : Option Nat) : List Doc :=
  match limit with
  | none => docs.filter (matchesFilter f)
  | some n => (docs.filter (matchesFilter f)).take n

/-! ## HTTP handlers (src/main.py)

Each `POST` route is modelled in two layers, mirroring FastAPI: the
`post...` wrapper performs pydantic validation of the request body — a
body that fails validation is rejected with the 422 client error before
the handler body runs — and the handler itself (source name) receives the
validated entity.  The freshly generated ObjectId is a parameter. -/

/-- `create_test` (src/main.py:78-84): insert the validated test, respond
`{"id": inserted_id}`. -/
def create_test (s : Store) (newId : String) (t : Test) :
    Store × HResult Doc :=
  ({ s with tests := create_document s.tests newId (serializeTest t) },
   .ok [("id", Val.str newId)])

/-- FastAPI route `POST /api/tests`: validate, then `create_test`. -/
def postTests (s : Store) (newId : String) (p : TestPayload) :
    Store × HResult Doc :=
  match Test.validate p with
  | none => (s, .error (422, "validation error"))
  | some t => create_test s newId t

/-- `list_tests` (src/main.py:87-93): `limit` is an optional query
parameter defaulting to 50; results are `_doc`-normalized. -/
def list_tests (s : Store) (limit : Option Nat) : List Doc :=
  (get_documents s.tests [] (some (limit.getD 50))).map docNormalize

/-- `start_attempt` (src/main.py:113-119): insert the validated attempt,
respond `{"id": inserted_id}`. -/
def start_attempt (s : Store) (newId : String) (a : Attempt) :
    Store × HResult Doc :=
  ({ s with
      attempts := create_document s.attempts newId (serializeAttempt a) },
   .ok [("id", Val.str newId)])

/-- FastAPI route `POST /api/attempts`: validate, then `start_attempt`. -/
def postAttempts (s : Store) (newId : String) (p : AttemptPayload) :
    Store × HResult Doc :=
  match Attempt.validate p with
  | none => (s, .error (422, "validation error"))
  | some a => start_attempt s newId a

/-- `list_attempts` (src/main.py:122-133): the filter collects `test_id`
and `user_email` only when truthy (`if test_id:` — `None` and `""` are
both falsy in Python). -/
def list_attempts (s : Store) (test_id : Option String)
    (user_email : Option String) : List Doc :=
  let f1 : List (String × String) :=
    match test_id with
    | some v => if v = "" then [] else [("test_id", v)]
    | none => []
  let f2 : List (String × String) :=
    match user_email with
    | some v => if v = "" then [] else [("user_email", v)]
    | none => []
  (get_documents s.attempts (f1 ++ f2) none).map docNormalize

/-- `add_submission` (src/main.py:138-144): insert the validated
submission, respond `{"id": inserted_id}`. -/
def add_submission (s : Store) (newId : String) (sb : Submission) :
    Store × HResult Doc :=
  ({ s with
      submissions :=
        create_document s.submissions newId (serializeSubmission sb) },
   .ok [("id", Val.str newId)])

/-- FastAPI route `POST /api/submissions`: validate, then
`add_submission`. -/
def postSubmissions (s : Store) (newId : String) (p : SubmissionPayload) :
    Store × HResult Doc :=
  match Submission.validate p with
  | none => (s, .error (422, "validation error"))
  | some sb => add_submission s newId sb

/-- `list_submissions` (src/main.py:147-154): the filter is
`{"attempt_id": attempt_id} if attempt_id else {}`. -/
def list_submissions (s : Store) (attempt_id : Option String) : List Doc :=
  let f : List (String × String) :=
    match attempt_id with
    | some v => if v = "" then [] else [("attempt_id", v)]
    | none => []
  (get_documents s.submissions f none).map docNormalize

/-! ## Association-list lemmas for the `_doc` normalization -/

/-- Lookup distributes over concatenation, preferring the left part. -/
theorem getKey_append (k : String) (d1 d2 : Doc) :
    getKey k (d1 ++ d2) =
      match getKey k d1 with
      | some v => some v
      | none => getKey k d2 := by
  induction d1 with
  | nil => rfl
  | cons p rest ih =>
      obtain ⟨k2, v⟩ := p
      by_cases h : k2 = k
      · simp [getKey, h]
      · simp [getKey, h, ih]

/-- A key absent from the dict looks up to `None`. -/
theorem getKey_eq_none_of_hasKey_false (k : String) (d : Doc)
    (h : hasKey k d = false) : getKey k d = none := by
  induction d with
  | nil => rfl
  | cons p rest ih =>
      obtain ⟨k2, v⟩ := p
      simp only [hasKey, List.any_cons, Bool.or_eq_false_iff,
        decide_eq_false_iff_not] at h
      exact by simp [getKey, h.1, ih (by simpa [hasKey] using h.2)]

/-- A popped key no longer resolves. -/
theorem getKey_eraseKey_self (k : String) (d : Doc) :
    getKey k (eraseKey k d) = none := by
  induction d with
  | nil => rfl
  | cons p rest ih =>
      obtain ⟨k2, v⟩ := p
      by_cases h : k2 = k
      · simp [eraseKey, h, ih]
      · simp [eraseKey, h, getKey, ih]

/-- Popping one key leaves the other keys' lookups unchanged. -/
theorem getKey_eraseKey_ne (k kp : String) (h : ¬ k = kp) (d : Doc) :
    getKey k (eraseKey kp d) = getKey k d := by
  have hpk : ¬ kp = k := fun e => h e.symm
  induction d with
  | nil => rfl
  | cons p rest ih =>
      obtain ⟨k2, v⟩ := p
      by_cases h2 : k2 = kp
      · subst h2
        simp [eraseKey, getKey, hpk, ih]
      · by_cases h3 : k2 = k
        · subst h3
          simp [eraseKey, getKey, h2]
        · simp [eraseKey, getKey, h2, h3, ih]

/-- Every binding surviving a pop was present before. -/
theorem mem_eraseKey (k : String) (d : Doc) (p : String × Val)
    (h : p ∈ eraseKey k d) : p ∈ d := by
  induction d with
  | nil => exact absurd h (by simp [eraseKey])
  | cons q rest ih =>
      by_cases h2 : q.1 = k
      · simp only [eraseKey, if_pos h2] at h
        exact List.mem_cons_of_mem q (ih h)
      · simp only [eraseKey, if_neg h2, List.mem_cons] at h
        rcases h with h | h
        · exact h ▸ List.mem_cons_self q rest
        · exact List.mem_cons_of_mem q (ih h)

/-- In-place update: the updated key resolves to the new value. -/
theorem getKey_updateKey_self (k : String) (v : Val) (d : Doc)
    (h : hasKey k d = true) :
    getKey k (updateKey k v d) = some v := by
  induction d with
  | nil => simp [hasKey] at h
  | cons p rest ih =>
      obtain ⟨k2, v2⟩ := p
      by_cases h2 : k2 = k
      · simp [updateKey, h2, getKey]
      · have hr : hasKey k rest = true := by
          simpa [hasKey, List.any_cons, h2] using h
        simp [updateKey, h2, getKey, ih hr]

/-- In-place update of one key leaves the other keys' lookups unchanged. -/
theorem getKey_updateKey_ne (k kp : String) (h : ¬ k = kp) (v : Val)
    (d : Doc) :
    getKey k (updateKey kp v d) = getKey k d := by
  have hpk : ¬ kp = k := fun e => h e.symm
  induction d with
  | nil => rfl
  | cons p rest ih =>
      obtain ⟨k2, v2⟩ := p
      by_cases h2 : k2 = kp
      · subst h2
        simp [updateKey, getKey, hpk, ih]
      · by_cases h3 : k2 = k
        · subst h3
          simp [updateKey, getKey, h2]
        · simp [updateKey, getKey, h2, h3, ih]

/-- Every binding after an in-place update either has the updated key or
was present before. -/
theorem mem_updateKey (k : String) (v : Val) (d : Doc) (p : String × Val)
    (h : p ∈ updateKey k v d) : p.1 = k ∨ p ∈ d := by
  induction d with
  | nil => exact absurd h (by simp [updateKey])
  | cons q rest ih =>
      by_cases h2 : q.1 = k
      · simp only [updateKey, if_pos h2, List.mem_cons] at h
        rcases h with h | h
        · exact Or.inl (by rw [h])
        · rcases ih h with h3 | h3
          · exact Or.inl h3
          · exact Or.inr (List.mem_cons_of_mem q h3)
      · simp only [updateKey, if_neg h2, List.mem_cons] at h
        rcases h with h | h
        · exact Or.inr (h ▸ List.mem_cons_self q rest)
        · rcases ih h with h3 | h3
          · exact Or.inl h3
          · exact Or.inr (List.mem_cons_of_mem q h3)

/-- After `d[k] = v`, looking up `k` yields `v`. -/
theorem getKey_setKey_self (k : String) (v : Val) (d : Doc) :
    getKey k (setKey k v d) = some v := by
  by_cases h : hasKey k d = true
  · simp [setKey, h, getKey_updateKey_self k v d h]
  · have hf : hasKey k d = false := by simpa using h
    have hn : getKey k d = none := getKey_eq_none_of_hasKey_false k d hf
    simp only [setKey, hf]
    rw [if_neg (by simp)]
    rw [getKey_append]
    simp [hn, getKey]

/-- After `d[kp] = v` for another key `kp`, looking up `k` is unchanged. -/
theorem getKey_setKey_ne (k kp : String) (h : ¬ k = kp) (v : Val) (d : Doc) :
    getKey k (setKey kp v d) = getKey k d := by
  have hpk : ¬ kp = k := fun e => h e.symm
  by_cases hs : hasKey kp d = true
  · simp [setKey, hs, getKey_updateKey_ne k kp h v d]
  · have hf : hasKey kp d = false := by simpa using hs
    simp only [setKey, hf]
    rw [if_neg (by simp)]
    rw [getKey_append]
    cases hg : getKey k d with
    | some w => simp
    | none => simp [getKey, hpk]

/-- Every binding of `d[kp] = v` either has key `kp` or was present
before. -/
theorem mem_setKey (k : String) (v : Val) (d : Doc) (p : String × Val)
    (h : p ∈ setKey k v d) : p.1 = k ∨ p ∈ d := by
  by_cases hs : hasKey k d = true
  · simp only [setKey, hs, if_pos rfl] at h
    exact mem_updateKey k v d p h
  · have hf : hasKey k d = false := by simpa using hs
    simp only [setKey, hf] at h
    rw [if_neg (by simp)] at h
    rcases List.mem_append.mp h with h | h
    · exact Or.inr h
    · exact Or.inl (by rw [List.mem_singleton.mp h])

/-! ## The `_doc` normalization: specification lemmas -/

/-- Popping an absent key is a no-op. -/
theorem eraseKey_of_hasKey_false (k : String) (d : Doc)
    (h : hasKey k d = false) : eraseKey k d = d := by
  induction d with
  | nil => rfl
  | cons p rest ih =>
      obtain ⟨k2, v⟩ := p
      simp only [hasKey, List.any_cons, Bool.or_eq_false_iff,
        decide_eq_false_iff_not] at h
      simp [eraseKey, h.1, ih (by simpa [hasKey] using h.2)]

/-- On a document carrying a native `_id`, normalization removes `_id`
and makes `id` hold its string form. -/
theorem docNormalize_getKey_id (d : Doc) (v : Val)
    (h : getKey "_id" d = some v) :
    getKey "_id" (docNormalize d) = none ∧
      getKey "id" (docNormalize d) = some (Val.str (pyStr v)) := by
  unfold docNormalize
  rw [h]
  constructor
  · rw [getKey_setKey_ne "_id" "id" (by decide)]
    exact getKey_eraseKey_self "_id" d
  · exact getKey_setKey_self "id" _ _

/-- Normalization leaves every key other than `_id` and `id` unchanged. -/
theorem docNormalize_getKey_frame (d : Doc) (k : String)
    (h1 : ¬ k = "_id") (h2 : ¬ k = "id") :
    getKey k (docNormalize d) = getKey k d := by
  unfold docNormalize
  cases hg : getKey "_id" d with
  | none => rfl
  | some v => rw [getKey_setKey_ne k "id" h2, getKey_eraseKey_ne k "_id" h1]

/-- A document without a native `_id` is returned unchanged. -/
theorem docNormalize_of_no_id (d : Doc) (h : getKey "_id" d = none) :
    docNormalize d = d := by
  unfold docNormalize
  rw [h]

/-- Normalization introduces no key other than `id`. -/
theorem mem_docNormalize (d : Doc) (p : String × Val)
    (h : p ∈ docNormalize d) : p.1 = "id" ∨ ∃ q ∈ d, q.1 = p.1 := by
  unfold docNormalize at h
  cases hg : getKey "_id" d with
  | none =>
      rw [hg] at h
      exact Or.inr ⟨p, h, rfl⟩
  | some v =>
      rw [hg] at h
      rcases mem_setKey _ _ _ _ h with h2 | h2
      · exact Or.inl h2
      · exact Or.inr ⟨p, mem_eraseKey _ _ _ h2, rfl⟩

/-! ## Claim C9: the `_doc` frame property -/

/-- Counterexample to claim C9 as stated: on a document that already has
an `id` field alongside `_id`, `_doc` does not leave every non-`_id` key's
value unchanged — the prior `id` value is overwritten with the string form
of `_id`. -/
theorem underscore_doc_counterexample :
    getKey "id" [("_id", Val.oid "0123456789abcdef01234567"),
                 ("id", Val.str "client-chosen")] =
      some (Val.str "client-chosen") ∧
    _doc (some [("_id", Val.oid "0123456789abcdef01234567"),
                ("id", Val.str "client-chosen")]) =
      some [("id", Val.str "0123456789abcdef01234567")] ∧
    ¬ (Val.str "client-chosen" = Val.str "0123456789abcdef01234567") := by
  refine ⟨rfl, rfl, fun h => ?_⟩
  exact absurd (Val.str.inj h) (by decide)

/-- Claim C9 as amended: `_doc` preserves every key other than `_id` and
`id` with value unchanged, removes `_id`, sets `id` to the string form of
`_id` when `_id` is present (overwriting any prior `id`), leaves documents
without `_id` entirely unchanged, adds no key other than `id`, and returns
falsy inputs (`None` or the empty dict) unchanged. -/
theorem underscore_doc_frame (dd : Doc) (k : String)
    (hk1 : ¬ k = "_id") (hk2 : ¬ k = "id") (hne : dd ≠ []) :
    _doc none = none ∧
    _doc (some []) = some [] ∧
    _doc (some dd) = some (docNormalize dd) ∧
    getKey k (docNormalize dd) = getKey k dd ∧
    getKey "_id" (docNormalize dd) = none ∧
    (getKey "_id" dd = none → docNormalize dd = dd) ∧
    (∀ v, getKey "_id" dd = some v →
       getKey "id" (docNormalize dd) = some (Val.str (pyStr v))) ∧
    (∀ p ∈ docNormalize dd, p.1 = "id" ∨ ∃ q ∈ dd, q.1 = p.1) := by
  have hfalse : pyFalsy (some dd) = false := by
    cases dd with
    | nil => exact absurd rfl hne
    | cons p rest => rfl
  refine ⟨rfl, rfl, by simp [_doc, hfalse], docNormalize_getKey_frame dd k hk1 hk2,
    ?_, docNormalize_of_no_id dd, fun v hv => (docNormalize_getKey_id dd v hv).2,
    mem_docNormalize dd⟩
  cases hg : getKey "_id" dd with
  | none => rw [docNormalize_of_no_id dd hg]; exact hg
  | some v => exact (docNormalize_getKey_id dd v hg).1

/-- Witness for the amended C9 at a concrete two-field document. -/
theorem underscore_doc_frame_witness :
    _doc (some [("x", Val.int 1),
                ("_id", Val.oid "0123456789abcdef01234567")]) =
      some (docNormalize
        [("x", Val.int 1), ("_id", Val.oid "0123456789abcdef01234567")]) ∧
    getKey "x" (docNormalize
        [("x", Val.int 1), ("_id", Val.oid "0123456789abcdef01234567")]) =
      getKey "x" [("x", Val.int 1),
                  ("_id", Val.oid "0123456789abcdef01234567")] :=
  ⟨(underscore_doc_frame
      [("x", Val.int 1), ("_id", Val.oid "0123456789abcdef01234567")] "x"
      (by decide) (by decide) (by simp)).2.2.1,
   (underscore_doc_frame
      [("x", Val.int 1), ("_id", Val.oid "0123456789abcdef01234567")] "x"
      (by decide) (by decide) (by simp)).2.2.2.1⟩

/-! ## Claim C4: identifier normalization on every read endpoint -/

/-- A stored document carries a native ObjectId under `_id` (the invariant
MongoDB maintains for every inserted document). -/
def hasOidId (d : Doc) : Bool :=
  match getKey "_id" d with
  | some (.oid _) => true
  | _ => false

/-- Whatever `get_documents` returns was in the collection. -/
theorem mem_get_documents (docs : List Doc) (f : List (String × String))
    (lim : Option Nat) (d : Doc) (h : d ∈ get_documents docs f lim) :
    d ∈ docs := by
  unfold get_documents at h
  cases lim with
  | none => exact List.mem_of_mem_filter h
  | some n => exact List.mem_of_mem_filter (List.take_subset n _ h)

/-- Shape of every document a list endpoint emits: it is the
normalization of a stored document, its `_id` is gone, and `id` holds the
stored identifier's string form. -/
theorem api_output_shape (docs : List Doc) (f : List (String × String))
    (lim : Option Nat) (d : Doc)
    (hwf : docs.all hasOidId = true)
    (h : d ∈ (get_documents docs f lim).map docNormalize) :
    ∃ d0 ∈ docs, ∃ kk, getKey "_id" d0 = some (Val.oid kk) ∧
      d = docNormalize d0 ∧ getKey "_id" d = none ∧
      getKey "id" d = some (Val.str kk) := by
  rcases List.mem_map.mp h with ⟨d0, hd0, rfl⟩
  have hd0m : d0 ∈ docs := mem_get_documents docs f lim d0 hd0
  have hw : hasOidId d0 = true := List.all_eq_true.mp hwf d0 hd0m
  unfold hasOidId at hw
  cases hg : getKey "_id" d0 with
  | none => rw [hg] at hw; cases hw
  | some v =>
      rw [hg] at hw
      cases v with
      | oid kk =>
          refine ⟨d0, hd0m, kk, hg, rfl, ?_, ?_⟩
          · exact (docNormalize_getKey_id d0 _ hg).1
          · exact (docNormalize_getKey_id d0 _ hg).2
      | str a => cases hw
      | int a => cases hw
      | bool a => cases hw
      | null => cases hw
      | list a => cases hw
      | doc a => cases hw

/-- Claim C4: every document returned by the list endpoints or the
single-fetch endpoint is a stored document with its native `_id` replaced
by the field `id` holding that identifier's string form; `_id` never
appears in a response document. -/
theorem response_id_normalization (s : Store) (lim : Option Nat)
    (ti ue ai : Option String) (tid : String)
    (hT : s.tests.all hasOidId = true)
    (hA : s.attempts.all hasOidId = true)
    (hS : s.submissions.all hasOidId = true) :
    (∀ d ∈ list_tests s lim, ∃ d0 ∈ s.tests, ∃ kk,
       getKey "_id" d0 = some (Val.oid kk) ∧ d = docNormalize d0 ∧
       getKey "_id" d = none ∧ getKey "id" d = some (Val.str kk)) ∧
    (∀ d ∈ list_attempts s ti ue, ∃ d0 ∈ s.attempts, ∃ kk,
       getKey "_id" d0 = some (Val.oid kk) ∧ d = docNormalize d0 ∧
       getKey "_id" d = none ∧ getKey "id" d = some (Val.str kk)) ∧
    (∀ d ∈ list_submissions s ai, ∃ d0 ∈ s.submissions, ∃ kk,
       getKey "_id" d0 = some (Val.oid kk) ∧ d = docNormalize d0 ∧
       getKey "_id" d = none ∧ getKey "id" d = some (Val.str kk)) ∧
    (∀ d, get_test s tid = .ok d → ∃ d0 ∈ s.tests, ∃ kk,
       getKey "_id" d0 = some (Val.oid kk) ∧ d = docNormalize d0 ∧
       getKey "_id" d = none ∧ getKey "id" d = some (Val.str kk)) := by
  refine ⟨?_, ?_, ?_, ?_⟩
  · intro d hd
    exact api_output_shape s.tests _ _ d hT (by simpa [list_tests] using hd)
  · intro d hd
    exact api_output_shape s.attempts _ _ d hA
      (by simpa [list_attempts] using hd)
  · intro d hd
    exact api_output_shape s.submissions _ _ d hS
      (by simpa [list_submissions] using hd)
  · intro d hd
    unfold get_test at hd
    by_cases hv : ObjectId.is_valid tid = false
    · rw [if_pos hv] at hd
      exact Except.noConfusion hd
    · rw [if_neg hv] at hd
      cases hf : find_one s.tests (normOid tid) with
      | none =>
          rw [hf] at hd
          exact Except.noConfusion hd
      | some d0 =>
          rw [hf] at hd
          have hd2 : (if d0.isEmpty = true then
              (Except.error (404, "Test not found") : HResult Doc)
            else Except.ok (docNormalize d0)) = Except.ok d := hd
          by_cases he : d0.isEmpty = true
          · rw [if_pos he] at hd2
            exact Except.noConfusion hd2
          · rw [if_neg he] at hd2
            have hde : docNormalize d0 = d := Except.ok.inj hd2
            have hd0m : d0 ∈ s.tests := List.mem_of_find?_eq_some hf
            have hw : hasOidId d0 = true := List.all_eq_true.mp hT d0 hd0m
            unfold hasOidId at hw
            cases hg : getKey "_id" d0 with
            | none => rw [hg] at hw; cases hw
            | some v =>
                rw [hg] at hw
                cases v with
                | oid kk =>
                    refine ⟨d0, hd0m, kk, hg, hde.symm, ?_, ?_⟩
                    · rw [← hde]
                      exact (docNormalize_getKey_id d0 _ hg).1
                    · rw [← hde]
                      exact (docNormalize_getKey_id d0 _ hg).2
                | str a => cases hw
                | int a => cases hw
                | bool a => cases hw
                | null => cases hw
                | list a => cases hw
                | doc a => cases hw

/-- A one-test store used in witnesses. -/
def testDocW : Doc :=
  [("_id", Val.oid "0123456789abcdef01234567"), ("title", Val.str "T")]

/-- A concrete store holding one test, used in witnesses. -/
def storeW : Store := ⟨[], [testDocW], [], []⟩

/-- Witness for C4: instantiating the theorem on a one-test store yields
the concrete normalized response shape. -/
theorem response_id_normalization_witness :
    getKey "_id" (docNormalize testDocW) = none ∧
      getKey "id" (docNormalize testDocW) =
        some (Val.str "0123456789abcdef01234567") := by
  have hm : docNormalize testDocW ∈ list_tests storeW (some 5) := by
    have he : list_tests storeW (some 5) = [docNormalize testDocW] := rfl
    rw [he]
    exact List.mem_singleton_self _
  have h := (response_id_normalization storeW (some 5) none none none "z"
    rfl rfl rfl).1 (docNormalize testDocW) hm
  rcases h with ⟨d0, hd0, kk, h1, h2, h3, h4⟩
  have hd0e : d0 = testDocW := List.mem_singleton.mp hd0
  subst hd0e
  have hk : kk = "0123456789abcdef01234567" := by
    have hc : getKey "_id" testDocW =
        some (Val.oid "0123456789abcdef01234567") := rfl
    rw [hc] at h1
    exact (Val.oid.inj (Option.some.inj h1)).symm
  subst hk
  exact ⟨h3, h4⟩

/-! ## Claims C5, C6, C10: list filtering and limits -/

/-- An exact-match condition holds precisely when the document's field is
that exact string value. -/
theorem fieldMatches_iff (d : Doc) (k v : String) :
    fieldMatches d (k, v) = true ↔ getKey k d = some (Val.str v) := by
  unfold fieldMatches
  cases hg : getKey k d with
  | none => simp
  | some w => cases w <;> simp

/-- The empty filter matches everything. -/
theorem filter_matchesFilter_nil (l : List Doc) :
    l.filter (matchesFilter []) = l := by
  induction l with
  | nil => rfl
  | cons d rest ih => simp [List.filter_cons, matchesFilter, ih]

/-- A one-condition filter is that condition. -/
theorem matchesFilter_one (kv : String × String) :
    matchesFilter [kv] = fun d => fieldMatches d kv := by
  funext d
  simp [matchesFilter]

/-- A two-condition filter is the conjunction of its conditions. -/
theorem matchesFilter_two (kv1 kv2 : String × String) :
    matchesFilter [kv1, kv2] =
      fun d => fieldMatches d kv1 && fieldMatches d kv2 := by
  funext d
  simp [matchesFilter]

/-- A one-attempt store used for the C5 discussion. -/
def attemptDocW : Doc :=
  [("_id", Val.oid "aaaaaaaaaaaaaaaaaaaaaaaa"),
   ("user_email", Val.str "a@b.com")]

/-- Counterexample to claim C5 as stated: with the provided parameter
value `user_email=""` the endpoint does not return exactly the attempts
whose `user_email` equals `""` — the empty string is treated as absent,
the filter is dropped, and an attempt with a different `user_email` is
returned rather than excluded. -/
theorem list_attempts_empty_param_counterexample :
    list_attempts ⟨[], [], [attemptDocW], []⟩ none (some "") =
      [docNormalize attemptDocW] ∧
    getKey "user_email" (docNormalize attemptDocW) =
      some (Val.str "a@b.com") ∧
    ¬ (Val.str "a@b.com" = Val.str "") := by
  refine ⟨rfl, rfl, fun h => absurd (Val.str.inj h) (by decide)⟩

/-- Claim C5 as amended: for every nonempty `X`, listing attempts with
`user_email=X` returns exactly the stored attempts whose `user_email`
equals `X` (normalized), excluding all others; with `test_id` also
provided (nonempty) the filter is the exact-match conjunction; omitted
parameters impose no constraint (and an empty-string value, by the code's
truthiness test, likewise imposes none). -/
theorem list_attempts_exact_filter (s : Store) (X : String)
    (hX : ¬ X = "") :
    list_attempts s none (some X) =
      (s.attempts.filter
        (fun d => fieldMatches d ("user_email", X))).map docNormalize ∧
    (∀ tid : String, ¬ tid = "" →
       list_attempts s (some tid) (some X) =
         (s.attempts.filter (fun d =>
            fieldMatches d ("test_id", tid) &&
            fieldMatches d ("user_email", X))).map docNormalize) ∧
    (∀ (d : Doc) (k v : String),
       fieldMatches d (k, v) = true ↔ getKey k d = some (Val.str v)) ∧
    list_attempts s none none = s.attempts.map docNormalize := by
  refine ⟨?_, ?_, fun d k v => fieldMatches_iff d k v, ?_⟩
  · simp [list_attempts, get_documents, hX, matchesFilter_one]
  · intro tid htid
    simp [list_attempts, get_documents, hX, htid, matchesFilter_two]
  · simp [list_attempts, get_documents, filter_matchesFilter_nil]

/-- Witness for the amended C5 on a one-attempt store with a nonempty
filter value. -/
theorem list_attempts_exact_filter_witness :
    list_attempts ⟨[], [], [attemptDocW], []⟩ none (some "a@b.com") =
      (([attemptDocW].filter
        (fun d => fieldMatches d ("user_email", "a@b.com"))).map
          docNormalize) :=
  (list_attempts_exact_filter ⟨[], [], [attemptDocW], []⟩ "a@b.com"
    (by decide)).1

/-- Claim C6: listing tests with `limit=N` returns at most `N` documents
whatever the store holds, and omitting `limit` behaves as the default
`limit=50`. -/
theorem list_tests_limit_enforced (s : Store) (N : Nat) :
    (list_tests s (some N)).length ≤ N ∧
      list_tests s none = list_tests s (some 50) := by
  constructor
  · simp only [list_tests, get_documents, Option.getD_some, List.length_map,
      List.length_take]
    exact min_le_left _ _
  · rfl

/-- Claim C10: an empty-string query parameter is treated exactly like an
omitted one on the attempt and submission list endpoints, so no equality
constraint against `""` is applied and all stored documents (whatever
their field values) are returned. -/
theorem empty_param_means_no_filter (s : Store) :
    (∀ ue : Option String,
       list_attempts s (some "") ue = list_attempts s none ue) ∧
    (∀ ti : Option String,
       list_attempts s ti (some "") = list_attempts s ti none) ∧
    list_submissions s (some "") = list_submissions s none ∧
    list_attempts s (some "") (some "") = s.attempts.map docNormalize ∧
    list_submissions s (some "") = s.submissions.map docNormalize := by
  refine ⟨fun ue => rfl, fun ti => ?_, rfl, ?_, ?_⟩
  · cases ti with
    | none => rfl
    | some v =>
        by_cases hv : v = ""
        · subst hv; rfl
        · simp [list_attempts, hv]
  · simp [list_attempts, get_documents, filter_matchesFilter_nil]
  · simp [list_submissions, get_documents, filter_matchesFilter_nil]

/-! ## Claim C3: create-then-fetch round trip -/

/-- A serialized test never carries the reserved keys `_id` or `id`. -/
theorem serializeTest_hasKey_false (t : Test) :
    hasKey "_id" (serializeTest t) = false ∧
      hasKey "id" (serializeTest t) = false := by
  cases hcb : t.created_by with
  | none => simp [serializeTest, optField, hasKey, hcb]
  | some c => simp [serializeTest, optField, hasKey, hcb]

/-- Looking up a fresh ObjectId after an insert finds exactly the inserted
document. -/
theorem find_one_append_fresh (docs : List Doc) (nid : String) (body : Doc)
    (hfresh : docs.all (fun d => !(idMatches nid d)) = true) :
    find_one (docs ++ [("_id", Val.oid nid) :: body]) nid =
      some (("_id", Val.oid nid) :: body) := by
  induction docs with
  | nil => simp [find_one, List.find?, idMatches, getKey]
  | cons d rest ih =>
      have h1 : idMatches nid d = false := by
        have h := List.all_eq_true.mp hfresh d (List.mem_cons_self d rest)
        simpa using h
      have h2 : rest.all (fun d => !(idMatches nid d)) = true := by
        rw [List.all_eq_true]
        intro x hx
        exact List.all_eq_true.mp hfresh x (List.mem_cons_of_mem d hx)
      have ih2 := ih h2
      unfold find_one at ih2 ⊢
      rw [List.cons_append, List.find?_cons_of_neg _ (by simp [h1]), ih2]

/-- Claim C3: `POST /api/tests` with a valid payload inserts the
default-filled serialized test under a fresh ObjectId and answers
`{"id": nid}`; fetching that id then returns exactly the default-filled
fields plus the string field `id` equal to the returned identifier, with
no native `_id` field present. -/
theorem create_then_get_roundtrip (s : Store) (p : TestPayload) (t : Test)
    (nid : String)
    (hp : Test.validate p = some t)
    (hv : ObjectId.is_valid nid = true)
    (hc : normOid nid = nid)
    (hfresh : s.tests.all (fun d => !(idMatches nid d)) = true) :
    postTests s nid p =
      ({ s with
          tests := s.tests ++ [("_id", Val.oid nid) :: serializeTest t] },
       .ok [("id", Val.str nid)]) ∧
    get_test (postTests s nid p).1 nid =
      .ok (serializeTest t ++ [("id", Val.str nid)]) ∧
    getKey "_id" (serializeTest t ++ [("id", Val.str nid)]) = none ∧
    getKey "id" (serializeTest t ++ [("id", Val.str nid)]) =
      some (Val.str nid) := by
  have hkeys := serializeTest_hasKey_false t
  have hgn : getKey "_id" (serializeTest t) = none :=
    getKey_eq_none_of_hasKey_false _ _ hkeys.1
  have hgi : getKey "id" (serializeTest t) = none :=
    getKey_eq_none_of_hasKey_false _ _ hkeys.2
  have hpost : postTests s nid p =
      ({ s with
          tests := s.tests ++ [("_id", Val.oid nid) :: serializeTest t] },
       .ok [("id", Val.str nid)]) := by
    simp [postTests, hp, create_test, create_document]
  have hnorm : docNormalize (("_id", Val.oid nid) :: serializeTest t) =
      serializeTest t ++ [("id", Val.str nid)] := by
    unfold docNormalize
    rw [show getKey "_id" (("_id", Val.oid nid) :: serializeTest t) =
        some (Val.oid nid) from by simp [getKey]]
    have h1 : eraseKey "_id" (("_id", Val.oid nid) :: serializeTest t) =
        serializeTest t := by
      rw [show eraseKey "_id" (("_id", Val.oid nid) :: serializeTest t) =
          eraseKey "_id" (serializeTest t) from by simp [eraseKey]]
      exact eraseKey_of_hasKey_false _ _ hkeys.1
    unfold setKey
    rw [h1]
    show (if hasKey "id" (serializeTest t) = true
        then updateKey "id" (Val.str (pyStr (Val.oid nid))) (serializeTest t)
        else serializeTest t ++ [("id", Val.str (pyStr (Val.oid nid)))]) = _
    rw [if_neg (by simp [hkeys.2])]
    rfl
  refine ⟨hpost, ?_, ?_, ?_⟩
  · rw [hpost]
    show get_test
      { s with
          tests := s.tests ++ [("_id", Val.oid nid) :: serializeTest t] }
      nid = _
    unfold get_test
    rw [if_neg (by simp [hv])]
    rw [show ({ s with
        tests := s.tests ++ [("_id", Val.oid nid) :: serializeTest t] } :
          Store).tests =
        s.tests ++ [("_id", Val.oid nid) :: serializeTest t] from rfl]
    rw [hc, find_one_append_fresh s.tests nid (serializeTest t) hfresh]
    show (if (("_id", Val.oid nid) :: serializeTest t).isEmpty = true then
        (Except.error (404, "Test not found") : HResult Doc)
      else Except.ok
        (docNormalize (("_id", Val.oid nid) :: serializeTest t))) = _
    rw [if_neg (by simp)]
    rw [hnorm]
  · rw [getKey_append]
    rw [hgn]
    simp [getKey]
  · rw [getKey_append]
    rw [hgi]
    simp [getKey]

/-- The spec's scenario payload: `{title:"Frontend Basics",
description:"", tags:["js"], questions:[]}` with everything else unset. -/
def testPayloadW : TestPayload :=
  ⟨some "Frontend Basics", some "", none, some ["js"], none, some [], none⟩

/-- The validated, default-filled form of `testPayloadW`. -/
def testW : Test :=
  ⟨"Frontend Basics", "", 60, ["js"], false, [], none⟩

/-- Witness for C3 on the spec's scenario: create on the empty store,
fetch by the returned id. -/
theorem create_then_get_roundtrip_witness :
    get_test (postTests emptyStore "0123456789abcdef01234567"
        testPayloadW).1 "0123456789abcdef01234567" =
      .ok (serializeTest testW ++
        [("id", Val.str "0123456789abcdef01234567")]) ∧
    getKey "_id" (serializeTest testW ++
        [("id", Val.str "0123456789abcdef01234567")]) = none :=
  ⟨(create_then_get_roundtrip emptyStore testPayloadW testW
      "0123456789abcdef01234567" rfl (by decide) (by decide) rfl).2.1,
   (create_then_get_roundtrip emptyStore testPayloadW testW
      "0123456789abcdef01234567" rfl (by decide) (by decide) rfl).2.2.1⟩

/-! ## Claim C7: schema defaults -/

/-- A question payload with `options` (and everything defaultable)
unset. -/
def questionPayloadW : QuestionPayload :=
  ⟨some "Q1", some "mcq", some "Pick one", none, none, none, none⟩

/-- The validated form of `questionPayloadW`. -/
def questionW : Question :=
  ⟨"Q1", QuestionType.mcq, "Pick one", none, 1, none, none⟩

/-- Counterexample to claim C7 as stated: a question with `options` unset
validates to `options = None` (the field stays absent), not to the empty
list — `options: Optional[List[Option]] = None` (src/schemas.py:40). -/
theorem question_options_default_counterexample :
    Question.validate questionPayloadW = some questionW ∧
    questionW.options = none ∧
    ¬ ((none : Option (List AnswerOption)) = some []) := by
  exact ⟨rfl, rfl, by simp⟩

/-- Claim C7 as amended: unset defaultable fields validate to the
documented defaults — `role="test_taker"`, `is_active=true`,
`published=false`, `duration_minutes=60`, `points=1`, `status="active"`,
`score=0`, `total_points=0`, and empty lists for `tags`, `questions` and
`submissions` — while `options` defaults to absent (`None`), not to the
empty list. -/
theorem schema_defaults (pu : UserPayload) (pt : TestPayload)
    (pq : QuestionPayload) (pa : AttemptPayload)
    (u : User) (t : Test) (q : Question) (a : Attempt) :
    (User.validate pu = some u → pu.role = none →
       u.role = Role.test_taker) ∧
    (User.validate pu = some u → pu.is_active = none →
       u.is_active = true) ∧
    (Test.validate pt = some t → pt.published = none →
       t.published = false) ∧
    (Test.validate pt = some t → pt.duration_minutes = none →
       t.duration_minutes = 60) ∧
    (Test.validate pt = some t → pt.tags = none → t.tags = []) ∧
    (Test.validate pt = some t → pt.questions = none →
       t.questions = []) ∧
    (Question.validate pq = some q → pq.points = none → q.points = 1) ∧
    (Question.validate pq = some q → pq.options = none →
       q.options = none) ∧
    (Attempt.validate pa = some a → pa.status = none →
       a.status = AttemptStatus.active) ∧
    (Attempt.validate pa = some a → pa.score = none →
       a.score = some 0) ∧
    (Attempt.validate pa = some a → pa.total_points = none →
       a.total_points = some 0) ∧
    (Attempt.validate pa = some a → pa.submissions = none →
       a.submissions = []) := by
  refine ⟨?_, ?_, ?_, ?_, ?_, ?_, ?_, ?_, ?_, ?_, ?_, ?_⟩
  · intro hv hd
    unfold User.validate at hv
    rw [hd] at hv
    simp only [defaultedRole] at hv
    split at hv
    · cases hv
      simp_all
    · exact Option.noConfusion hv
  · intro hv hd
    unfold User.validate at hv
    rw [hd] at hv
    split at hv
    · cases hv
      simp_all
    · exact Option.noConfusion hv
  · intro hv hd
    unfold Test.validate at hv
    rw [hd] at hv
    split at hv
    · cases hv
      simp_all
    · exact Option.noConfusion hv
  · intro hv hd
    unfold Test.validate at hv
    rw [hd] at hv
    split at hv
    · cases hv
      simp_all
    · exact Option.noConfusion hv
  · intro hv hd
    unfold Test.validate at hv
    rw [hd] at hv
    split at hv
    · cases hv
      simp_all
    · exact Option.noConfusion hv
  · intro hv hd
    unfold Test.validate at hv
    rw [hd] at hv
    simp only [Option.getD_none, validateList] at hv
    split at hv
    · cases hv
      simp_all
    · exact Option.noConfusion hv
  · intro hv hd
    unfold Question.validate at hv
    rw [hd] at hv
    split at hv
    · cases hv
      simp_all
    · exact Option.noConfusion hv
  · intro hv hd
    unfold Question.validate at hv
    rw [hd] at hv
    simp only [optValidateList] at hv
    split at hv
    · cases hv
      simp_all
    · exact Option.noConfusion hv
  · intro hv hd
    unfold Attempt.validate at hv
    rw [hd] at hv
    simp only [defaultedStatus] at hv
    split at hv
    · cases hv
      simp_all
    · exact Option.noConfusion hv
  · intro hv hd
    unfold Attempt.validate at hv
    rw [hd] at hv
    split at hv
    · cases hv
      simp_all
    · exact Option.noConfusion hv
  · intro hv hd
    unfold Attempt.validate at hv
    rw [hd] at hv
    split at hv
    · cases hv
      simp_all
    · exact Option.noConfusion hv
  · intro hv hd
    unfold Attempt.validate at hv
    rw [hd] at hv
    split at hv
    · cases hv
      simp_all
    · exact Option.noConfusion hv

/-- A user payload with `role` and `is_active` unset. -/
def userPayloadW : UserPayload := ⟨some "A", some "a@b.com", none, none, none⟩

/-- The validated form of `userPayloadW`. -/
def userW : User := ⟨"A", "a@b.com", Role.test_taker, none, true⟩

/-- An attempt payload with every defaultable field unset. -/
def attemptPayloadW : AttemptPayload :=
  ⟨some "t1", some "a@b.com", some "A", none, none, none, none, none, none⟩

/-- The validated form of `attemptPayloadW`. -/
def attemptW : Attempt :=
  ⟨"t1", "a@b.com", "A", AttemptStatus.active, none, none, some 0, some 0, []⟩

/-- Witness for the amended C7 at concrete default-exercising payloads. -/
theorem schema_defaults_witness :
    userW.role = Role.test_taker ∧ testW.published = false ∧
      questionW.options = none ∧ attemptW.status = AttemptStatus.active :=
  ⟨(schema_defaults userPayloadW testPayloadW questionPayloadW
      attemptPayloadW userW testW questionW attemptW).1 rfl rfl,
   (schema_defaults userPayloadW testPayloadW questionPayloadW
      attemptPayloadW userW testW questionW attemptW).2.2.1 rfl rfl,
   (schema_defaults userPayloadW testPayloadW questionPayloadW
      attemptPayloadW userW testW questionW attemptW).2.2.2.2.2.2.2.1 rfl rfl,
   (schema_defaults userPayloadW testPayloadW questionPayloadW
      attemptPayloadW userW testW questionW attemptW).2.2.2.2.2.2.2.2.1 rfl rfl⟩

/-! ## Claim C8: validation is structural and type-level only -/

/-- A structurally valid test payload whose single question violates the
mcq business rule (type `"mcq"` with no `options`). -/
def mcqNoOptionsPayload : TestPayload :=
  ⟨some "T", some "", none, none, none, some [questionPayloadW], none⟩

/-- The validated form of `mcqNoOptionsPayload`: the rule-violating
question is accepted unchanged. -/
def mcqNoOptionsTest : Test :=
  ⟨"T", "", 60, [], false, [questionW], none⟩

/-- Claim C8: a request body missing a required field or carrying a value
outside an enumerated set is rejected with a client error before the
handler runs and nothing is stored, the literal sets being exactly
`role ∈ {test_taker, manager, admin}`, `status ∈ {active, finished}` and
`type ∈ {mcq, code}`; a structurally valid body that violates the mcq
business rule is accepted and stored as-is. -/
theorem structural_validation_only (s : Store) (nid : String)
    (ap : AttemptPayload) :
    ((ap.test_id = none ∨ ap.user_email = none ∨ ap.user_name = none ∨
        (∃ v, ap.status = some v ∧ parseStatus v = none)) →
      Attempt.validate ap = none ∧
      postAttempts s nid ap = (s, .error (422, "validation error"))) ∧
    (∀ v : String, parseRole v = none ↔
       ¬ (v = "test_taker" ∨ v = "manager" ∨ v = "admin")) ∧
    (∀ v : String, parseStatus v = none ↔
       ¬ (v = "active" ∨ v = "finished")) ∧
    (∀ v : String, parseQuestionType v = none ↔
       ¬ (v = "mcq" ∨ v = "code")) ∧
    (Test.validate mcqNoOptionsPayload = some mcqNoOptionsTest ∧
     mcqNoOptionsTest.questions = [questionW] ∧
     questionW.type = QuestionType.mcq ∧ questionW.options = none ∧
     postTests s nid mcqNoOptionsPayload =
       ({ s with
           tests := s.tests ++
             [("_id", Val.oid nid) :: serializeTest mcqNoOptionsTest] },
        .ok [("id", Val.str nid)])) := by
  refine ⟨?_, ?_, ?_, ?_, ?_⟩
  · intro h
    have hval : Attempt.validate ap = none := by
      rcases h with h | h | h | ⟨v, hv1, hv2⟩
      · unfold Attempt.validate
        rw [h]
      · unfold Attempt.validate
        rw [h]
        cases ap.test_id <;> rfl
      · unfold Attempt.validate
        rw [h]
        cases ap.test_id <;> cases ap.user_email <;> rfl
      · unfold Attempt.validate
        rw [hv1]
        rw [show defaultedStatus (some v) = none from by
          simp [defaultedStatus, hv2]]
        cases ap.test_id <;> cases ap.user_email <;>
          cases ap.user_name <;> rfl
    exact ⟨hval, by simp [postAttempts, hval]⟩
  · intro v
    unfold parseRole
    split_ifs with h1 h2 h3 <;> simp_all
  · intro v
    unfold parseStatus
    split_ifs with h1 h2 <;> simp_all
  · intro v
    unfold parseQuestionType
    split_ifs with h1 h2 <;> simp_all
  · refine ⟨rfl, rfl, rfl, rfl, ?_⟩
    rw [show postTests s nid mcqNoOptionsPayload =
        create_test s nid mcqNoOptionsTest from by
      unfold postTests
      rw [show Test.validate mcqNoOptionsPayload = some mcqNoOptionsTest
        from rfl]]
    rfl

/-- An attempt payload missing the required `test_id`. -/
def badAttemptPayload : AttemptPayload :=
  ⟨none, some "a@b.com", some "A", none, none, none, none, none, none⟩

/-- Witness for C8: the payload missing `test_id` is rejected with the
client error and the store is untouched. -/
theorem structural_validation_only_witness :
    Attempt.validate badAttemptPayload = none ∧
    postAttempts emptyStore "0123456789abcdef01234567" badAttemptPayload =
      (emptyStore, .error (422, "validation error")) :=
  (structural_validation_only emptyStore "0123456789abcdef01234567"
    badAttemptPayload).1 (Or.inl rfl)
